import Mathlib

/-!

Shallow embedding of the CLI layer of half_orm_dev (file half_orm_dev/hop.py).

The file hop.py builds a click command group. The class Hop inspects a Repo
object (its checked, devel and production attributes) in Hop.__init__ and
stores the list of offered subcommands in the class-level variable
Hop.__available_cmds. Hop.add_commands registers exactly those subcommands
with the click group. Each subcommand callback optionally assigns
self.__command, performs exactly one call on the Repo object, and in the case
of prepare finishes with sys.exit().

The embedding below models: the classification of the repository state into a
command list (availableCmds), the class-level state mutated by Hop.__init__
(HopClassState, hopInit), the registration loop (addCommands), the effect
trace of each click callback (runCallback), the resulting process exit code
(processExitCode), and the output of the main group when invoked without a
subcommand (mainOutput).

-/

namespace HopCli

/-- The three observations hop.py reads from the Repo object: the properties
repo.checked (are we in a hop repository), repo.devel (full development mode
versus sync-only mode) and repo.production (production environment). -/
structure Repo where
  checked : Bool
  devel : Bool
  production : Bool
  deriving DecidableEq, Repr

/-- The branch structure of Hop.__init__ computing Hop.__available_cmds:
not checked gives new; checked without devel gives sync-package; devel in
production gives upgrade and restore; devel otherwise gives prepare, apply,
release, undo. -/
def availableCmds (r : Repo) : List String :=
  if !r.checked then ["new"]
  else if !r.devel then ["sync-package"]
  else if r.production then ["upgrade", "restore"]
  else ["prepare", "apply", "release", "undo"]

/-- The class-level state of Hop: the class variables __available_cmds
(initially the empty list) and __command (initially None). -/
structure HopClassState where
  available_cmds : List String
  command : Option String
  deriving DecidableEq, Repr

/-- The class-attribute defaults of Hop: __available_cmds = [] and
__command = None. -/
def hopClassDefaults : HopClassState := ⟨[], none⟩

/-- Hop.__init__: reads the Repo observations and assigns the computed command
list to the class-level variable Hop.__available_cmds. -/
def hopInit (r : Repo) (cs : HopClassState) : HopClassState :=
  { cs with available_cmds := availableCmds r }

/-- The keys of the cmds dictionary built in Hop.add_commands. -/
def cmdKeys : List String :=
  ["new", "prepare", "apply", "undo", "release", "sync-package", "upgrade", "restore"]

/-- The registration loop of Hop.add_commands: for each name in the available
list, look the callback up in the cmds dictionary (a missing key would raise
KeyError, modelled as none) and add it to the click group. The result is the
list of registered subcommand names. -/
def addCommands : List String → Option (List String)
  | [] => some []
  | c :: rest =>
    if cmdKeys.contains c then (addCommands rest).map (fun l => c :: l) else none

/-- One call performed on the Repo object by a subcommand callback, with the
arguments the callback passes. Constructor names follow the Repo methods
invoked in hop.py. -/
inductive RepoCall where
  | init (package_name : String) (devel : Bool)
  | prepare_release (level : Option String) (message : Option String)
  | apply_release
  | undo_release (database_only : Bool)
  | upgrade_prod
  | restore (release : String)
  | commit_release (push : Bool)
  | sync_package
  deriving DecidableEq, Repr

/-- An observable step of a click callback body: assignment to self.__command,
a call on the Repo object, or sys.exit. The sysExit code 0 embeds the Python
call sys.exit() with no argument, which exits the process with status 0. -/
inductive Effect where
  | setCommand (s : String)
  | callRepo (c : RepoCall)
  | sysExit (code : Nat)
  deriving DecidableEq, Repr

/-- A subcommand invocation together with its click arguments and options.
Constructor names follow the callback functions defined in Hop.add_commands. -/
inductive Subcommand where
  | new (package_name : String) (devel : Bool)
  | prepare (level : Option String) (message : Option String)
  | apply
  | undo (database_only : Bool)
  | upgrade
  | restore (release : String)
  | release (push : Bool)
  | sync_package
  deriving DecidableEq, Repr

/-- The name under which each callback is registered in the cmds dictionary of
Hop.add_commands. -/
def subcommandName : Subcommand → String
  | .new _ _ => "new"
  | .prepare _ _ => "prepare"
  | .apply => "apply"
  | .undo _ => "undo"
  | .upgrade => "upgrade"
  | .restore _ => "restore"
  | .release _ => "release"
  | .sync_package => "sync-package"

/-- The effects a callback performs before its Repo call: exactly the
assignments self.__command = ... present in hop.py. prepare, apply and undo
assign their own name; upgrade assigns the string upgrade_prod; the other
callbacks assign nothing. -/
def cmdPre : Subcommand → List Effect
  | .prepare _ _ => [.setCommand ("prepare")]
  | .apply => [.setCommand ("apply")]
  | .undo _ => [.setCommand ("undo")]
  | .upgrade => [.setCommand ("upgrade_prod")]
  | _ => []

/-- The single Repo call each callback performs. -/
def cmdRepoCall : Subcommand → RepoCall
  | .new p d => .init p d
  | .prepare l m => .prepare_release l m
  | .apply => .apply_release
  | .undo d => .undo_release d
  | .upgrade => .upgrade_prod
  | .restore r => .restore r
  | .release p => .commit_release p
  | .sync_package => .sync_package

/-- The effects a callback performs after its Repo call returns: only prepare
has one, the call sys.exit(). -/
def cmdPost : Subcommand → List Effect
  | .prepare _ _ => [.sysExit 0]
  | _ => []

/-- Running a callback given the outcome of its Repo call. No callback in
hop.py contains an exception handler, so when the Repo call raises (the error
case) the exception propagates out of the callback and the post effects are
never reached; the trace still records the effects performed before and
including the raising call. -/
def runCallback (i : Subcommand) (res : Except String Unit) :
    List Effect × Option String :=
  match res with
  | .ok _ => (cmdPre i ++ [.callRepo (cmdRepoCall i)] ++ cmdPost i, none)
  | .error e => (cmdPre i ++ [.callRepo (cmdRepoCall i)], some e)

/-- The exit code requested by the last sys.exit in a trace, if any. -/
def lastExit : List Effect → Option Nat
  | [] => none
  | .sysExit n :: rest =>
    match lastExit rest with
    | some m => some m
    | none => some n
  | _ :: rest => lastExit rest

/-- The process exit code of a CLI invocation running one callback: an
uncaught exception makes the Python interpreter exit with status 1; otherwise
the process exits with the sys.exit code when one was requested, and with 0 on
a plain return to click. -/
def processExitCode (run : List Effect × Option String) : Nat :=
  match run.2 with
  | some _ => 1
  | none => (lastExit run.1).getD 0

/-- Whether a trace contains any sys.exit call. -/
def hasSysExit : List Effect → Bool
  | [] => false
  | .sysExit _ :: _ => true
  | _ :: rest => hasSysExit rest

/-- The value of self.__command after a trace has run, starting from the given
current value. -/
def commandAfter : Option String → List Effect → Option String
  | cur, [] => cur
  | _, .setCommand s :: rest => commandAfter (some s) rest
  | cur, _ :: rest => commandAfter cur rest

/-- Whether a subcommand invocation is the prepare callback. -/
def isPrepare : Subcommand → Bool
  | .prepare _ _ => true
  | _ => false

/-- The hint printed by main when not in a hop repository. -/
def hopNewHint : String :=
  "Not in a hop repository. Try hop new or change directory."

/-- The lines printed by the main click group body given repo_checked, the
state string hop.state and the invoked subcommand (none when the CLI is run
with no subcommand): if checked and no subcommand it echoes the state; else if
not checked and the subcommand is not new it echoes the state and the hint. -/
def mainOutput (checked : Bool) (st : String) (sub : Option String) : List String :=
  if checked && sub.isNone then [st]
  else if !checked && !(sub == some ("new")) then [st, hopNewHint]
  else []

/-- Claim C1: in every repository state with initialized = true, mode =
Development (devel) and environment = Development (not production), the
offered command set is exactly prepare, apply, release, undo; in particular
none of new, sync-package, upgrade, restore is offered. -/
theorem devel_env_offers_authoring_commands (r : Repo)
    (h1 : r.checked = true) (h2 : r.devel = true) (h3 : r.production = false) :
    availableCmds r = ["prepare", "apply", "release", "undo"] ∧
    ("new") ∉ availableCmds r ∧ ("sync-package") ∉ availableCmds r ∧
    ("upgrade") ∉ availableCmds r ∧ ("restore") ∉ availableCmds r := by
  rcases r with ⟨c, d, p⟩
  cases c <;> cases d <;> cases p
  all_goals first
    | exact absurd h1 (by decide)
    | exact absurd h2 (by decide)
    | exact absurd h3 (by decide)
    | decide

/-- Witness for C1 at the development-mode development-environment state. -/
theorem devel_env_offers_authoring_commands_witness :
    availableCmds ⟨true, true, false⟩ = ["prepare", "apply", "release", "undo"] ∧
    ("new") ∉ availableCmds ⟨true, true, false⟩ ∧
    ("sync-package") ∉ availableCmds ⟨true, true, false⟩ ∧
    ("upgrade") ∉ availableCmds ⟨true, true, false⟩ ∧
    ("restore") ∉ availableCmds ⟨true, true, false⟩ :=
  devel_env_offers_authoring_commands ⟨true, true, false⟩ rfl rfl rfl

/-- Claim C2: in every repository state with initialized = true, mode =
Development (devel) and environment = Production, the offered command set is
exactly upgrade, restore; no authoring command is offered. -/
theorem production_env_offers_upgrade_restore (r : Repo)
    (h1 : r.checked = true) (h2 : r.devel = true) (h3 : r.production = true) :
    availableCmds r = ["upgrade", "restore"] ∧
    ("prepare") ∉ availableCmds r ∧ ("apply") ∉ availableCmds r ∧
    ("release") ∉ availableCmds r ∧ ("undo") ∉ availableCmds r := by
  rcases r with ⟨c, d, p⟩
  cases c <;> cases d <;> cases p
  all_goals first
    | exact absurd h1 (by decide)
    | exact absurd h2 (by decide)
    | exact absurd h3 (by decide)
    | decide

/-- Witness for C2 at the development-mode production-environment state. -/
theorem production_env_offers_upgrade_restore_witness :
    availableCmds ⟨true, true, true⟩ = ["upgrade", "restore"] ∧
    ("prepare") ∉ availableCmds ⟨true, true, true⟩ ∧
    ("apply") ∉ availableCmds ⟨true, true, true⟩ ∧
    ("release") ∉ availableCmds ⟨true, true, true⟩ ∧
    ("undo") ∉ availableCmds ⟨true, true, true⟩ :=
  production_env_offers_upgrade_restore ⟨true, true, true⟩ rfl rfl rfl

/-- Claim C3: in every repository state with initialized = false the only
command offered is new, and in every state with initialized = true and mode =
SyncOnly (devel = false) the only command offered is sync-package. -/
theorem uninitialized_offers_new_synconly_offers_sync (r r2 : Repo)
    (h : r.checked = false) (h1 : r2.checked = true) (h2 : r2.devel = false) :
    availableCmds r = ["new"] ∧ availableCmds r2 = ["sync-package"] := by
  constructor
  · rcases r with ⟨c, d, p⟩
    cases c
    · cases d <;> cases p <;> decide
    · simp at h
  · rcases r2 with ⟨c, d, p⟩
    cases c
    · simp at h1
    · cases d
      · cases p <;> decide
      · simp at h2

/-- Witness for C3 at an uninitialized state and at a sync-only state. -/
theorem uninitialized_offers_new_synconly_offers_sync_witness :
    availableCmds ⟨false, false, false⟩ = ["new"] ∧
    availableCmds ⟨true, false, false⟩ = ["sync-package"] :=
  uninitialized_offers_new_synconly_offers_sync
    ⟨false, false, false⟩ ⟨true, false, false⟩ rfl rfl rfl

/-- Claim C8: after Hop initialization the available command list is always
exactly one of the four fixed lists, it is never empty, and new is never
offered together with any other command. -/
theorem available_cmds_one_of_four_sets (r : Repo) :
    (availableCmds r = ["new"] ∨ availableCmds r = ["sync-package"] ∨
     availableCmds r = ["upgrade", "restore"] ∨
     availableCmds r = ["prepare", "apply", "release", "undo"]) ∧
    availableCmds r ≠ [] ∧
    (("new") ∈ availableCmds r → availableCmds r = ["new"]) := by
  rcases r with ⟨c, d, p⟩
  cases c <;> cases d <;> cases p <;> decide

/-- Witness for C8: at an uninitialized state, new is offered and the command
list collapses to the singleton new. -/
theorem available_cmds_one_of_four_sets_witness :
    availableCmds ⟨false, true, false⟩ = ["new"] :=
  (available_cmds_one_of_four_sets ⟨false, true, false⟩).2.2 (by decide)

/-- Claim C4 counterexample: in the production state the legal set excludes
prepare, yet invoking the prepare callback executes repo.prepare_release and
produces no error of any kind: the engine itself performs no legality check. -/
theorem illegal_op_executes_counterexample :
    ("prepare") ∉ availableCmds ⟨true, true, true⟩ ∧
    subcommandName (.prepare none none) = "prepare" ∧
    Effect.callRepo (.prepare_release none none) ∈
      (runCallback (.prepare none none) (.ok ())).1 ∧
    (runCallback (.prepare none none) (.ok ())).2 = none := by
  decide

/-- Claim C4 amended: operations outside the legal set of the classified state
are only excluded from CLI registration: add_commands registers exactly the
available command list, while every callback, invoked on any arguments,
unconditionally executes its Repo call and raises no error itself. -/
theorem registration_filters_but_engine_never_refuses (r : Repo) (i : Subcommand) :
    addCommands (availableCmds r) = some (availableCmds r) ∧
    Effect.callRepo (cmdRepoCall i) ∈ (runCallback i (.ok ())).1 ∧
    (runCallback i (.ok ())).2 = none := by
  refine ⟨?_, ?_, rfl⟩
  · rcases r with ⟨c, d, p⟩
    cases c <;> cases d <;> cases p <;> decide
  · cases i <;> simp [runCallback, cmdPre, cmdPost]

/-- Claim C5 counterexample: Hop.__init__ mutates the class-level variable
Hop.__available_cmds: classifying an uninitialized repository from the class
defaults yields a class state different from the one it started with. -/
theorem classification_mutates_class_state_counterexample :
    hopInit ⟨false, false, false⟩ hopClassDefaults ≠ hopClassDefaults := by
  decide

/-- Claim C5 amended: the classification result is a function of the Repo
observations alone, so two classifications over the same observations agree,
but Hop.__init__ stores the result by overwriting the class-level variable
Hop.__available_cmds, shared mutable state across invocations. -/
theorem classification_deterministic_but_mutates_class_var
    (r : Repo) (cs cs2 : HopClassState) :
    hopInit r cs = ⟨availableCmds r, cs.command⟩ ∧
    (hopInit r cs).available_cmds = (hopInit r cs2).available_cmds :=
  ⟨rfl, rfl⟩

/-- Claim C6: whenever the CLI is invoked with no subcommand, the first line
printed is the state string of the repository, both when the repository is
initialized (checked) and when it is not. -/
theorem no_subcommand_prints_state (checked : Bool) (st : String) :
    (mainOutput checked st none).head? = some st := by
  cases checked <;> rfl

/-- Claim C7: for every subcommand invocation, the process exit code is zero
exactly when the Repo operation the callback runs succeeds; an uncaught
exception from a failing operation makes the process exit non-zero. -/
theorem exit_code_zero_iff_engine_success (i : Subcommand) (res : Except String Unit) :
    processExitCode (runCallback i res) = 0 ↔ res = .ok () := by
  cases res with
  | ok u =>
    cases u
    refine iff_of_true ?_ rfl
    cases i <;> rfl
  | error e => simp [processExitCode, runCallback]

/-- Claim C9: the prepare callback runs exactly the trace that sets
self.__command, calls repo.prepare_release and then exits the process through
sys.exit() with status 0, while the trace of every other callback contains no
sys.exit at all. -/
theorem prepare_exits_others_return (l m : Option String) (i : Subcommand)
    (res : Except String Unit) (h : isPrepare i = false) :
    (runCallback (.prepare l m) (.ok ())).1 =
      [.setCommand ("prepare"), .callRepo (.prepare_release l m), .sysExit 0] ∧
    hasSysExit (runCallback i res).1 = false := by
  constructor
  · rfl
  · cases i <;> cases res <;> first | rfl | simp [isPrepare] at h

/-- Witness for C9 at the apply subcommand. -/
theorem prepare_exits_others_return_witness :
    (runCallback (.prepare none none) (.ok ())).1 =
      [.setCommand ("prepare"), .callRepo (.prepare_release none none), .sysExit 0] ∧
    hasSysExit (runCallback .apply (.ok ())).1 = false :=
  prepare_exits_others_return none none .apply (.ok ()) rfl

/-- Claim C10 counterexample: the upgrade callback assigns the string
upgrade_prod to self.__command, which differs from its subcommand name
upgrade; so upgrade does not set the command property to the subcommand name. -/
theorem upgrade_sets_upgrade_prod_counterexample :
    commandAfter none (runCallback .upgrade (.ok ())).1 = some ("upgrade_prod") ∧
    subcommandName .upgrade = "upgrade" ∧
    some ("upgrade_prod") ≠ (some ("upgrade") : Option String) := by
  refine ⟨rfl, rfl, ?_⟩
  decide

/-- Claim C10 amended: the command property is assigned only by prepare,
apply, undo and upgrade; the first three set it to their subcommand name,
upgrade sets it to upgrade_prod, and after release, restore, sync-package (or
new) it still holds None. -/
theorem command_field_assignments (l m : Option String) (db pu dv : Bool)
    (rel pkg : String) (res : Except String Unit) :
    commandAfter none (runCallback (.prepare l m) res).1 = some ("prepare") ∧
    commandAfter none (runCallback .apply res).1 = some ("apply") ∧
    commandAfter none (runCallback (.undo db) res).1 = some ("undo") ∧
    commandAfter none (runCallback .upgrade res).1 = some ("upgrade_prod") ∧
    commandAfter none (runCallback (.release pu) res).1 = none ∧
    commandAfter none (runCallback (.restore rel) res).1 = none ∧
    commandAfter none (runCallback .sync_package res).1 = none ∧
    commandAfter none (runCallback (.new pkg dv) res).1 = none := by
  cases res <;> exact ⟨rfl, rfl, rfl, rfl, rfl, rfl, rfl, rfl⟩

end HopCli
